import Mathlib

/-!
Shallow embedding of `doc_comments_ai/llm.py` (backend selection in
`LLM.__init__`, prompt construction in `LLM.generate_doc_comment`) and
verification of the specification claims about it.

Python string literals are reproduced byte-for-byte; adjacent Python
literals are concatenated exactly as the interpreter concatenates them.
Apostrophes and quotation marks inside the literals are written with
escape sequences.
-/

/-- The enum `GptModel` from `llm.py` lines 16-19. -/
inductive GptModel where
  | GPT_35
  | GPT_35_16K
  | GPT_4
  deriving DecidableEq, Repr

/-- The `value` of each `GptModel` enum member (`llm.py` lines 17-19). -/
def GptModel.value : GptModel → String
  | .GPT_35 => "gpt-3.5-turbo"
  | .GPT_35_16K => "gpt-3.5-turbo-16k"
  | .GPT_4 => "gpt-4"

/-- The concrete LLM backend handle built by `LLM.__init__`: one of
`LlamaCpp` (local file), `ChatLiteLLM` (hosted or azure-routed) or
`OllamaLLM` (network server), with exactly the constructor arguments the
Python code passes.  The temperature argument `0.8` is kept as the
literal decimal string to avoid floating point. -/
inductive Backend where
  | LlamaCpp (model_path : String) (temperature : String) (max_tokens : Nat)
      (verbose : Bool)
  | ChatLiteLLM (temperature : String) (max_tokens : Nat) (model : String)
  | OllamaLLM (base_url : String) (model : String) (temperature : String)
      (num_ctx : Nat)
  deriving DecidableEq, Repr

/-- Python `str.startswith`, character-by-character (`s.startswith(pre)`). -/
def startswith (s pre : String) : Bool := pre.data.isPrefixOf s.data

/-- Line 30 of `llm.py`: `max_tokens = 2048 if model == GptModel.GPT_35 else 4096`. -/
def max_tokens_for (model : GptModel) : Nat :=
  if model = GptModel.GPT_35 then 2048 else 4096

/-- Backend selection performed by `LLM.__init__` (`llm.py` lines 23-58):
the `if local_model / elif azure_deployment / elif ollama / else` chain,
including the `max_tokens` override to 32768 when the ollama model name
starts with `llama` (line 47-48).  The side effect `install_llama_cpp`
touches no constructor argument and is omitted. -/
def LLM.init (model : GptModel) (local_model : Option String)
    (azure_deployment : Option String) (ollama : Option (String × String)) :
    Backend :=
  let max_tokens := max_tokens_for model
  match local_model with
  | some path => .LlamaCpp path "0.8" max_tokens false
  | none =>
    match azure_deployment with
    | some dep => .ChatLiteLLM "0.8" max_tokens ("azure/" ++ dep)
    | none =>
      match ollama with
      | some ol =>
        let max_tokens := if startswith ol.2 "llama" then 32768 else max_tokens
        .OllamaLLM ol.1 ol.2 "0.8" max_tokens
      | none => .ChatLiteLLM "0.8" max_tokens model.value

/-- Token budget actually handed to the constructed backend
(`max_tokens` for LlamaCpp/ChatLiteLLM, `num_ctx` for OllamaLLM). -/
def Backend.budget : Backend → Nat
  | .LlamaCpp _ _ mt _ => mt
  | .ChatLiteLLM _ mt _ => mt
  | .OllamaLLM _ _ _ n => n

/-- Whitespace characters stripped by Python `str.strip()`: the
`str.isspace()` set, namely U+0009-U+000D, U+001C-U+001F, space, U+0085,
U+00A0, U+1680, U+2000-U+200A, U+2028, U+2029, U+202F, U+205F and U+3000
(U+180E is not whitespace since Unicode 6.3, matching CPython 3.4+). -/
def pyIsSpace (c : Char) : Bool :=
  let n := c.toNat
  (0x09 ≤ n && n ≤ 0x0d) || n = 0x20 || (0x1c ≤ n && n ≤ 0x1f) ||
  n = 0x85 || n = 0xa0 || n = 0x1680 ||
  (0x2000 ≤ n && n ≤ 0x200a) || n = 0x2028 || n = 0x2029 ||
  n = 0x202f || n = 0x205f || n = 0x3000

/-- Python `str.strip()`: drop leading and trailing whitespace. -/
def pyStrip (s : String) : String :=
  ⟨((s.data.dropWhile pyIsSpace).reverse.dropWhile pyIsSpace).reverse⟩

/-- The condition on line 96 of `llm.py`:
`if docstring and len(docstring.strip())>0`. -/
def includeDocstring (docstring : String) : Bool :=
  !docstring.data.isEmpty && !(pyStrip docstring).data.isEmpty

/-- The `comment_instructions` built for `inline=True` (`llm.py` lines 86-90). -/
def inlineInstructions : String :=
  "Add inline comments to the method body where it makes sense." ++
  "Return the complete method implementation with the doc comment as a single markdown code block. " ++
  "IMPORTANT: Ensure that absolutely no part of the original function is omitted or modified in your response. Every line, including imports, comments, and variable bindings, should be retained in the output. This is crucial to satisfy my use case."

/-- The base `comment_instructions` for `comment_with_source_code=True`
(`llm.py` lines 92-95). -/
def sourceEmbeddedBase : String :=
  "Return the complete method implementation with the doc comment as a single markdown code block. " ++
  "If a docstring already exists in the code, please reuse its content as much as possible and revise the docstring to reflect any detail that is missing in the existing docstring. "

/-- The docstring addendum appended when `includeDocstring` holds
(`llm.py` lines 97-98). -/
def docstringAddendum (docstring : String) : String :=
  "Additionally, the following docstring is also provided, please reuse its content to revise any detail that is missing in the existing docstring " ++
  docstring ++ ". "

/-- The tail of the `comment_with_source_code` instructions
(`llm.py` lines 100-103). -/
def sourceEmbeddedTail : String :=
  "IMPORTANT: Ensure that absolutely no part of the original function\x27s implementation is omitted or modified in your response. Every line, including imports, comments, and variable bindings, should be retained in the output. This is crucial to satisfy my use case. " ++
  "The docstring may, however, be revised. " ++
  "IMPORTANT: It is vital that everything is wrapped inside a single markdown code block only."

/-- The Python triple-quoted Haskell example block (`llm.py` lines 109-114),
byte-for-byte including the 16-space indentation. -/
def haskellExampleBlock : String :=
  "\n                Example Comment for Haskell language:\n                -- | This is the first line of a demo comment.\n                -- This is the second line of a demo comment.\"\n                i.e. Correct comment delimiters for Haskell language is \x27-- \x27 where the first line of the comment will be prefixed with \x27-- | \x27.\n                "

/-- Fixed text of the doc-only instructions before the language name
(`llm.py` lines 106-108 up to the f-string hole). -/
def docOnlyHead : String :=
  "Return the doc comment as a single markdown block. " ++
  "If the doc comment consists of more than one sentence then please follow multi-line comments." ++
  "IMPORTANT: Please avoid writing any code in the markdown block. Ensure that the markdown block contains only doc comments and enclose them appropriately using the correct comment delimiters for the "

/-- Fixed text of the doc-only instructions after the language name
(`llm.py` lines 108-117). -/
def docOnlyTail : String :=
  " language." ++
  haskellExampleBlock ++
  "Strictly avoid writing detailed comments for self-explanatory functions." ++
  "IMPORTANT: Strictly refrain from detailing input parameters or specifying what the function takes as input and its definition. This is crucial to meet my use case." ++
  "IMPORTANT: Please follow only the specified format. This is very important to satisfy my use case."

/-- The `comment_instructions` built for the doc-only (else) branch
(`llm.py` lines 105-118), with `{language}` substituted. -/
def docOnlyInstructions (language : String) : String :=
  docOnlyHead ++ language ++ docOnlyTail

/-- The `comment_instructions` value (`llm.py` lines 85-118), by mode. -/
def comment_instructions (language : String)
    (inline comment_with_source_code : Bool) (docstring : String) : String :=
  if inline then
    inlineInstructions
  else if comment_with_source_code then
    (sourceEmbeddedBase ++
      (if includeDocstring docstring then docstringAddendum docstring else ""))
      ++ sourceEmbeddedTail
  else
    docOnlyInstructions language

/-- Lines 120-123 of `llm.py`: the missing-type-signature directive slot. -/
def haskell_missing_signature (language : String) : String :=
  if language = "haskell" then "and missing type signatures " else ""

/-- A chat prompt: the system instruction string and the user message. -/
structure Prompt where
  system : String
  user : String
  deriving DecidableEq, Repr

/-- The system-message template of `llm.py` lines 60-68, with the three
holes substituted as `ChatPromptTemplate.invoke` substitutes them. -/
def systemMessage (language ci hms : String) : String :=
  "Act as a software documentation expert in " ++ language ++
  " language. Add detailed doc comments to the provided method without changing any code " ++
  "The doc comments should describe what the method does. " ++
  ci ++ " " ++
  "Don\x27t include any explanations " ++ hms ++ "in your response."

/-- Prompt built by `generate_doc_comment` (`llm.py` lines 81-134):
instructions in the system role, the code verbatim in the user role. -/
def generate_doc_comment (language code : String)
    (inline comment_with_source_code : Bool) (docstring : String) : Prompt :=
  { system := systemMessage language
      (comment_instructions language inline comment_with_source_code docstring)
      (haskell_missing_signature language)
    user := code }

/-- The tail of `generate_doc_comment` (`llm.py` lines 134-138): invoke the
backend on the built prompt and return its answer, modelling the backend
response as a function from prompts to text. -/
def generateWith (invoke : Prompt → String) (language code : String)
    (inline comment_with_source_code : Bool) (docstring : String) : String :=
  let prompt := generate_doc_comment language code inline
    comment_with_source_code docstring
  let documented_code := invoke prompt
  documented_code

/-- Substring containment on strings, via list infix on the character data. -/
def ContainsText (s pat : String) : Prop := pat.data <:+: s.data

instance (s pat : String) : Decidable (ContainsText s pat) :=
  List.decidableInfix pat.data s.data

set_option maxRecDepth 4000

/-- Character data of a concatenation is the concatenation of the data. -/
theorem chars_append (a b : String) : (a ++ b).data = a.data ++ b.data := rfl

/-- Containment is preserved by prepending text. -/
theorem ContainsText.of_right {s pat : String} (t : String)
    (h : ContainsText s pat) : ContainsText (t ++ s) pat := by
  obtain ⟨u, v, huv⟩ := h
  exact ⟨t.data ++ u, v, by simp [chars_append, ← huv, List.append_assoc]⟩

/-- Containment is preserved by appending text. -/
theorem ContainsText.of_left {s pat : String} (t : String)
    (h : ContainsText s pat) : ContainsText (s ++ t) pat := by
  obtain ⟨u, v, huv⟩ := h
  exact ⟨u, v ++ t.data, by simp [chars_append, ← huv, List.append_assoc]⟩

/-- A string contains its own final segment. -/
theorem ContainsText.append_self (a pat : String) :
    ContainsText (a ++ pat) pat :=
  ⟨a.data, [], by simp [chars_append]⟩

/-- A string contains its own final two segments. -/
theorem ContainsText.append_append (x a b : String) :
    ContainsText (x ++ a ++ b) (a ++ b) :=
  ⟨x.data, [], by simp [chars_append, List.append_assoc]⟩

/-- Containment is transitive along nesting. -/
theorem ContainsText.mono {s t pat : String}
    (hst : ContainsText s t) (htp : ContainsText t pat) : ContainsText s pat :=
  List.IsInfix.trans htp hst

/-- The built system message contains the full comment-instruction text. -/
theorem systemMessage_contains_ci (language ci hms : String) :
    ContainsText (systemMessage language ci hms) ci := by
  unfold systemMessage
  apply ContainsText.of_left
  apply ContainsText.of_left
  apply ContainsText.of_left
  apply ContainsText.of_left
  exact ContainsText.append_self _ _

/-- C1: for every backend-selector configuration, exactly one backend is
built, first-match-wins in the order local-file, enterprise deployment,
network-server, hosted-default, and the handle carries exactly that
selector's endpoint/model identity (local file path; model string
`azure/` plus deployment name; the given base URL and model name; the
plain hosted model name), with no other selector's fields in it. -/
theorem backend_first_match_wins (model : GptModel) (path dep base name : String)
    (azd : Option String) (oll : Option (String × String)) :
    LLM.init model (some path) azd oll
        = Backend.LlamaCpp path "0.8" (max_tokens_for model) false ∧
    LLM.init model none (some dep) oll
        = Backend.ChatLiteLLM "0.8" (max_tokens_for model) ("azure/" ++ dep) ∧
    LLM.init model none none (some (base, name))
        = Backend.OllamaLLM base name "0.8"
            (if startswith name "llama" then 32768 else max_tokens_for model) ∧
    LLM.init model none none none
        = Backend.ChatLiteLLM "0.8" (max_tokens_for model) model.value :=
  ⟨rfl, rfl, rfl, rfl⟩

/-- C2: for a LocalServer (ollama) configuration whose model name starts
with `llama`, the token budget passed to the backend is 32768 regardless
of the configured model family; otherwise it is the generic default
budget derived from the model family. -/
theorem ollama_long_context_override (model : GptModel) (base name : String) :
    (startswith name "llama" = true →
      LLM.init model none none (some (base, name))
        = Backend.OllamaLLM base name "0.8" 32768) ∧
    (startswith name "llama" = false →
      LLM.init model none none (some (base, name))
        = Backend.OllamaLLM base name "0.8" (max_tokens_for model)) := by
  constructor <;> intro h <;> simp [LLM.init, h]

/-- Witness for C2 at `llama3` (budget 32768 for every family, here the
family whose generic default is 2048) and `mistral` (generic default). -/
theorem ollama_long_context_override_witness :
    startswith "llama3" "llama" = true ∧
    LLM.init GptModel.GPT_35 none none (some ("http://srsw.cdot.in:11434", "llama3"))
      = Backend.OllamaLLM "http://srsw.cdot.in:11434" "llama3" "0.8" 32768 ∧
    startswith "mistral" "llama" = false ∧
    LLM.init GptModel.GPT_35 none none (some ("http://srsw.cdot.in:11434", "mistral"))
      = Backend.OllamaLLM "http://srsw.cdot.in:11434" "mistral" "0.8" 2048 := by
  refine ⟨by decide, (ollama_long_context_override GptModel.GPT_35 _ "llama3").1 (by decide),
    by decide, ?_⟩
  have h := (ollama_long_context_override GptModel.GPT_35
    "http://srsw.cdot.in:11434" "mistral").2 (by decide)
  simpa [max_tokens_for] using h

/-- C10: for the LocalFile, EnterpriseDeployment and HostedChat selectors
the token budget handed to the backend is determined solely by the
hosted-chat model family parameter: 2048 exactly when it is GPT_35 and
4096 otherwise. -/
theorem non_ollama_budget_from_model (model : GptModel) (path dep : String)
    (azd : Option String) (oll : Option (String × String)) :
    (LLM.init model (some path) azd oll).budget
        = (if model = GptModel.GPT_35 then 2048 else 4096) ∧
    (LLM.init model none (some dep) oll).budget
        = (if model = GptModel.GPT_35 then 2048 else 4096) ∧
    (LLM.init model none none none).budget
        = (if model = GptModel.GPT_35 then 2048 else 4096) :=
  ⟨rfl, rfl, rfl⟩

/-- C7: prompt construction is deterministic; two calls with identical
language, code, mode flags and docstring yield byte-identical system and
user strings. -/
theorem prompt_deterministic (l₁ l₂ c₁ c₂ : String) (i₁ i₂ w₁ w₂ : Bool)
    (d₁ d₂ : String) (hl : l₁ = l₂) (hc : c₁ = c₂) (hi : i₁ = i₂)
    (hw : w₁ = w₂) (hd : d₁ = d₂) :
    generate_doc_comment l₁ c₁ i₁ w₁ d₁ = generate_doc_comment l₂ c₂ i₂ w₂ d₂ := by
  subst hl hc hi hw hd
  rfl

/-- Witness for C7 at a concrete request. -/
theorem prompt_deterministic_witness :
    generate_doc_comment "python" "def add(a,b): return a+b" false false ""
      = generate_doc_comment "python" "def add(a,b): return a+b" false false "" :=
  prompt_deterministic _ _ _ _ _ _ _ _ _ _ rfl rfl rfl rfl rfl

/-- C8: `generate_doc_comment` returns exactly the backend's `invoke`
output on the built prompt, with nothing applied in between. -/
theorem generate_returns_backend_output (invoke : Prompt → String)
    (language code : String) (inline comment_with_source_code : Bool)
    (docstring : String) :
    generateWith invoke language code inline comment_with_source_code docstring
      = invoke (generate_doc_comment language code inline
          comment_with_source_code docstring) :=
  rfl

/-- C9: when both the inline and the comment-with-source-code flags are
true, the inline instruction set is built and the source-embedded one,
docstring included, is ignored: the prompt equals the one for any other
value of the source-code flag and docstring. -/
theorem inline_shadows_source_embedded (language code docstring : String)
    (w : Bool) (d : String) :
    generate_doc_comment language code true true docstring
        = generate_doc_comment language code true w d ∧
    comment_instructions language true true docstring = inlineInstructions :=
  ⟨rfl, rfl⟩

/-- Shared helper: the inline instruction text carries both halves of the
verbatim-preservation directive. -/
theorem inline_preservation_text :
    ContainsText inlineInstructions
        "Ensure that absolutely no part of the original function" ∧
    ContainsText inlineInstructions
        "omitted or modified in your response. Every line, including imports, comments, and variable bindings, should be retained in the output" := by
  constructor <;>
    · unfold inlineInstructions
      apply ContainsText.of_right
      decide

/-- Shared helper: the source-embedded tail carries both halves of the
verbatim-preservation directive. -/
theorem tail_preservation_text :
    ContainsText sourceEmbeddedTail
        "Ensure that absolutely no part of the original function" ∧
    ContainsText sourceEmbeddedTail
        "omitted or modified in your response. Every line, including imports, comments, and variable bindings, should be retained in the output" := by
  constructor <;>
    · unfold sourceEmbeddedTail
      apply ContainsText.of_left
      apply ContainsText.of_left
      decide

/-- C3: in the doc-only mode (neither flag set) the built system
instructions contain, for every language and code, both the directive
forbidding code in the markdown block and the directive forbidding
parameter descriptions. -/
theorem doc_only_directives (language code docstring : String) :
    ContainsText (generate_doc_comment language code false false docstring).system
        "IMPORTANT: Please avoid writing any code in the markdown block" ∧
    ContainsText (generate_doc_comment language code false false docstring).system
        "IMPORTANT: Strictly refrain from detailing input parameters" := by
  have hsys : (generate_doc_comment language code false false docstring).system
      = systemMessage language (docOnlyInstructions language)
          (haskell_missing_signature language) := rfl
  rw [hsys]
  constructor
  · refine ContainsText.mono (systemMessage_contains_ci _ _ _) ?_
    unfold docOnlyInstructions
    apply ContainsText.of_left
    apply ContainsText.of_left
    unfold docOnlyHead
    apply ContainsText.of_right
    decide
  · refine ContainsText.mono (systemMessage_contains_ci _ _ _) ?_
    unfold docOnlyInstructions
    apply ContainsText.of_right
    unfold docOnlyTail
    apply ContainsText.of_left
    apply ContainsText.of_right
    decide

/-- C4: whenever the inline or the comment-with-source-code flag is set,
the built instructions contain the verbatim-preservation directive: no
part of the original function omitted or modified, every line retained. -/
theorem verbatim_preservation_directive (language code docstring : String)
    (inline comment_with_source_code : Bool)
    (h : inline = true ∨ comment_with_source_code = true) :
    ContainsText (generate_doc_comment language code inline
        comment_with_source_code docstring).system
        "Ensure that absolutely no part of the original function" ∧
    ContainsText (generate_doc_comment language code inline
        comment_with_source_code docstring).system
        "omitted or modified in your response. Every line, including imports, comments, and variable bindings, should be retained in the output" := by
  cases inline with
  | true =>
    have hsys : (generate_doc_comment language code true
        comment_with_source_code docstring).system
        = systemMessage language inlineInstructions
            (haskell_missing_signature language) := rfl
    rw [hsys]
    exact ⟨ContainsText.mono (systemMessage_contains_ci _ _ _)
        inline_preservation_text.1,
      ContainsText.mono (systemMessage_contains_ci _ _ _)
        inline_preservation_text.2⟩
  | false =>
    have hw : comment_with_source_code = true := by
      rcases h with h | h
      · exact absurd h (by decide)
      · exact h
    subst hw
    have hsys : (generate_doc_comment language code false true docstring).system
        = systemMessage language
            ((sourceEmbeddedBase ++
                (if includeDocstring docstring then docstringAddendum docstring
                 else "")) ++ sourceEmbeddedTail)
            (haskell_missing_signature language) := rfl
    rw [hsys]
    constructor
    · refine ContainsText.mono (systemMessage_contains_ci _ _ _) ?_
      exact ContainsText.of_right _ tail_preservation_text.1
    · refine ContainsText.mono (systemMessage_contains_ci _ _ _) ?_
      exact ContainsText.of_right _ tail_preservation_text.2

/-- Witness for C4: inline mode on a concrete request. -/
theorem verbatim_preservation_directive_witness :
    (true = true ∨ false = true) ∧
    ContainsText (generate_doc_comment "python" "def add(a,b): return a+b"
        true false "").system
        "Ensure that absolutely no part of the original function" :=
  ⟨Or.inl rfl,
    (verbatim_preservation_directive "python" "def add(a,b): return a+b" ""
      true false (Or.inl rfl)).1⟩

/-- C5: the missing-type-signature directive is included exactly for the
language value `haskell`: there the built system instructions contain it
verbatim, and for any other language the directive slot is the empty
string, so the instructions coincide with directive-free ones. -/
theorem haskell_signature_directive (language code docstring : String)
    (inline comment_with_source_code : Bool) :
    (language = "haskell" →
      ContainsText (generate_doc_comment language code inline
          comment_with_source_code docstring).system
        "and missing type signatures in your response.") ∧
    (language ≠ "haskell" →
      haskell_missing_signature language = "" ∧
      (generate_doc_comment language code inline
          comment_with_source_code docstring).system
        = systemMessage language (comment_instructions language inline
            comment_with_source_code docstring) "") := by
  constructor
  · intro h
    subst h
    have hsys : (generate_doc_comment "haskell" code inline
        comment_with_source_code docstring).system
        = systemMessage "haskell" (comment_instructions "haskell" inline
            comment_with_source_code docstring)
            "and missing type signatures " := by
      simp [generate_doc_comment, haskell_missing_signature]
    rw [hsys]
    have hpat : ("and missing type signatures in your response." : String)
        = "and missing type signatures " ++ "in your response." := by decide
    rw [hpat]
    unfold systemMessage
    exact ContainsText.append_append _ _ _
  · intro h
    have hh : haskell_missing_signature language = "" := by
      simp [haskell_missing_signature, h]
    exact ⟨hh, by simp [generate_doc_comment, hh]⟩

/-- Witness for C5: directive present for haskell, slot empty for python. -/
theorem haskell_signature_directive_witness :
    ContainsText (generate_doc_comment "haskell" "f x = x" false false "").system
        "and missing type signatures in your response." ∧
    ("python" : String) ≠ "haskell" ∧
    haskell_missing_signature "python" = "" :=
  ⟨(haskell_signature_directive "haskell" "f x = x" "f x = x" false false).1 rfl,
    by decide,
    ((haskell_signature_directive "python" "f x = x" "f x = x" false false).2
      (by decide)).1⟩

/-- C6 counterexample: the docstring argument consisting of one tab
character is non-empty, yet in source-embedded mode the built system
instructions do not contain it: line 96 of `llm.py` drops any docstring
that strips to the empty string. -/
theorem source_embedded_docstring_counterexample :
    ("\t" : String) ≠ "" ∧
    ¬ ContainsText (generate_doc_comment "python" "def f(): pass"
        false true "\t").system "\t" := by
  refine ⟨by decide, fun hcon => ?_⟩
  have hinc : includeDocstring "\t" = false := by decide
  have hsys : (generate_doc_comment "python" "def f(): pass" false true "\t").system
      = systemMessage "python" ((sourceEmbeddedBase ++ "") ++ sourceEmbeddedTail)
          (haskell_missing_signature "python") := by
    simp [generate_doc_comment, comment_instructions, hinc]
  rw [hsys] at hcon
  have hmem : '\t' ∈ (systemMessage "python"
      ((sourceEmbeddedBase ++ "") ++ sourceEmbeddedTail)
      (haskell_missing_signature "python")).data :=
    List.IsInfix.subset hcon (by decide)
  have hh : haskell_missing_signature "python" = "" := by decide
  rw [hh] at hmem
  simp only [systemMessage, sourceEmbeddedBase, sourceEmbeddedTail,
    chars_append, List.mem_append] at hmem
  revert hmem
  decide

/-- C6 amended: for every source-embedded request whose docstring strips
to a non-empty string (Python truthiness plus `len(docstring.strip())>0`),
the built system instructions contain the docstring's exact text. -/
theorem source_embedded_includes_docstring (language code docstring : String)
    (h : (pyStrip docstring).data ≠ []) :
    ContainsText (generate_doc_comment language code false true docstring).system
      docstring := by
  have hne : docstring.data ≠ [] := by
    intro hd
    apply h
    simp [pyStrip, hd]
  have h1 : docstring.data.isEmpty = false := by
    cases hd : docstring.data with
    | nil => exact absurd hd hne
    | cons a l => rfl
  have h2 : (pyStrip docstring).data.isEmpty = false := by
    cases hd : (pyStrip docstring).data with
    | nil => exact absurd hd h
    | cons a l => rfl
  have hinc : includeDocstring docstring = true := by
    simp [includeDocstring, h1, h2]
  have hsys : (generate_doc_comment language code false true docstring).system
      = systemMessage language
          ((sourceEmbeddedBase ++ docstringAddendum docstring)
            ++ sourceEmbeddedTail)
          (haskell_missing_signature language) := by
    simp [generate_doc_comment, comment_instructions, hinc]
  rw [hsys]
  refine ContainsText.mono (systemMessage_contains_ci _ _ _) ?_
  apply ContainsText.of_left
  apply ContainsText.of_right
  unfold docstringAddendum
  apply ContainsText.of_left
  exact ContainsText.append_self _ _

/-- Witness for the amended C6 at a concrete docstring. -/
theorem source_embedded_includes_docstring_witness :
    (pyStrip "Adds two numbers.").data ≠ [] ∧
    ContainsText (generate_doc_comment "python" "def add(a,b): return a+b"
        false true "Adds two numbers.").system "Adds two numbers." :=
  ⟨by decide,
    source_embedded_includes_docstring "python" "def add(a,b): return a+b"
      "Adds two numbers." (by decide)⟩
